import Mathlib

/-!
Verification development for the risk-scoring engine of the dailo dashboard
(`src/js/probabilityCalculator.js`, `src/js/trendAnalyzer.js`, thresholds and
constants from `src/js/config.js`, `clamp`/`validateNumber` from
`src/js/utils.js`).

Modelling conventions:
* JavaScript numbers are embedded as exact rationals (`ℚ`).  A raw indicator
  value that `validateNumber` rejects (NaN, Infinity, a malformed string) is
  embedded as `none : Option ℚ`; an indicator key that is absent from the
  snapshot object is the outer `none` of `Option (Option ℚ)`.
* The one place where IEEE division by zero produces a non-finite value that
  is *consumed* (the velocity computation) is embedded with the explicit
  `FloatVal` type carrying `±Infinity` and `NaN`; everywhere else a division
  by zero is either unreachable or handled branch-by-branch with comments
  recording the IEEE behaviour being mirrored.
* Strings (`reason` fields), logging and the `trendAdjusted` flag are not
  modelled; a contributing factor is represented by its numeric `factor`
  field, which is the only field read by the aggregation step.
* The calculator is modelled per refresh cycle with `useTrendAnalysis` in its
  default `true` state; the outcome of `trendAnalyzer.analyzeAllTrends` is an
  explicit parameter (`none` = the wholesale-failure path that the
  orchestrator catches, replacing the multipliers with the empty object).
-/

/-- Result of a JavaScript floating-point computation: a finite (exact)
rational, a signed infinity, or NaN. -/
inductive FloatVal where
  | num : ℚ → FloatVal
  | posInf : FloatVal
  | negInf : FloatVal
  | nan : FloatVal
deriving DecidableEq

/-- Comparison operators accepted by `checkThreshold`. -/
inductive Op where
  | gt : Op
  | lt : Op
  | ge : Op
  | le : Op
  | eq : Op
deriving DecidableEq

/-- `utils.clamp`: `Math.min(Math.max(value, min), max)`. -/
def clamp (value lo hi : ℚ) : ℚ := min (max value lo) hi

/-- `checkThreshold(value, threshold, operator)`.  `validateNumber` throws on
a non-numeric value (`none`), the `catch` block returns `false`; thresholds in
the rule table are concrete finite numbers so only the value can fail. -/
def checkThreshold (value : Option ℚ) (threshold : ℚ) (op : Op) : Bool :=
  match value with
  | none => false
  | some v =>
    match op with
    | Op.gt => v > threshold
    | Op.lt => v < threshold
    | Op.ge => v ≥ threshold
    | Op.le => v ≤ threshold
    | Op.eq => v = threshold

/-- One rule guard `indicators.X && checkThreshold(indicators.X.raw, t, op)`:
an absent indicator (outer `none`) short-circuits to `false`. -/
def ruleTriggers (entry : Option (Option ℚ)) (threshold : ℚ) (op : Op) : Bool :=
  match entry with
  | none => false
  | some raw => checkThreshold raw threshold op

/-- `applyTrendAdjustment(baseFactor, seriesId)` with `useTrendAnalysis` in
its default `true` state.  The JavaScript guard `!this.trendMultipliers[id]`
is falsy both for a missing entry and for the number `0`. -/
def applyTrendAdjustment (baseFactor : ℚ) (m : Option ℚ) : ℚ :=
  match m with
  | none => baseFactor
  | some t => if t = 0 then baseFactor else baseFactor * t

/-- The indicator snapshot: the fields read by the five factor calculators.
Outer `Option`: the key is present in the `indicators` object; inner
`Option`: the `raw` field passes `validateNumber`. -/
structure Indicators where
  DeficitGDP : Option (Option ℚ)
  BAA10Y : Option (Option ℚ)
  T10Y2Y : Option (Option ℚ)
  DFF : Option (Option ℚ)
  GFDGDPA188S : Option (Option ℚ)
  BOGMBASE : Option (Option ℚ)
  M2SL : Option (Option ℚ)
  DXY : Option (Option ℚ)
  DGS10 : Option (Option ℚ)
  A091RC1Q027SBEA : Option (Option ℚ)
deriving DecidableEq

/-- A snapshot with every indicator absent. -/
def Indicators.empty : Indicators :=
  ⟨none, none, none, none, none, none, none, none, none, none⟩

/-- The `trendMultipliers` object produced by `analyzeAllTrends`.  Only the
three recession-rule series are ever looked up by `applyTrendAdjustment`;
`DFF` is carried to talk about multipliers that are available but unread. -/
structure TrendMultipliers where
  DeficitGDP : Option ℚ
  BAA10Y : Option ℚ
  T10Y2Y : Option ℚ
  DFF : Option ℚ
deriving DecidableEq

/-- The empty `{}` multipliers object (every lookup is `undefined`). -/
def TrendMultipliers.empty : TrendMultipliers := ⟨none, none, none, none⟩

/-- Multipliers object with every entry equal to `1.0`. -/
def TrendMultipliers.ones : TrendMultipliers := ⟨some 1, some 1, some 1, some 1⟩

/-- `calculateRecessionFactors`: Deficit/GDP > 5 (factor 1.8), BAA10Y > 4
(factor 2.0), T10Y2Y < 0 (factor 1.7); each trend-adjusted.  A factor is
represented by its numeric `factor` field. -/
def calculateRecessionFactors (ind : Indicators) (tm : TrendMultipliers) : List ℚ :=
  (if ruleTriggers ind.DeficitGDP 5 Op.gt
    then [applyTrendAdjustment (18/10) tm.DeficitGDP] else []) ++
  (if ruleTriggers ind.BAA10Y 4 Op.gt
    then [applyTrendAdjustment 2 tm.BAA10Y] else []) ++
  (if ruleTriggers ind.T10Y2Y 0 Op.lt
    then [applyTrendAdjustment (17/10) tm.T10Y2Y] else [])

/-- The `mbToM2` composite depression rule: both indicators present and
numeric, ratio > 0.3.  When `M2SL.raw = 0` the JavaScript ratio is a
non-finite value (±Infinity or NaN), which `validateNumber` inside
`checkThreshold` rejects, so the rule does not trigger. -/
def mbToM2Triggers (bog m2 : Option (Option ℚ)) : Bool :=
  match bog, m2 with
  | some (some b), some (some m) =>
      if m = 0 then false else checkThreshold (some (b / m)) (3/10) Op.gt
  | _, _ => false

/-- `calculateDepressionFactors`: DFF < 0.5 (factor 3.0), GFDGDPA188S > 150
(factor 2.0), MB/M2 > 0.3 (factor 1.5).  Note: unlike the recession rules,
no trend adjustment is applied (`this.trendMultipliers` is never read). -/
def calculateDepressionFactors (ind : Indicators) : List ℚ :=
  (if ruleTriggers ind.DFF (1/2) Op.lt then [(3 : ℚ)] else []) ++
  (if ruleTriggers ind.GFDGDPA188S 150 Op.gt then [(2 : ℚ)] else []) ++
  (if mbToM2Triggers ind.BOGMBASE ind.M2SL then [3/2] else [])

/-- `calculateReserveFactors`: DXY < 90 (factor 1.5); no trend adjustment. -/
def calculateReserveFactors (ind : Indicators) : List ℚ :=
  if ruleTriggers ind.DXY 90 Op.lt then [(3 : ℚ)/2] else []

/-- `calculateDefaultFactors`: Deficit/GDP > 7 (factor 3.0),
A091RC1Q027SBEA > 4 (factor 2.5), DGS10 − DFF > 2 (factor 1.5); no trend
adjustment.  The rate-spread rule needs both inputs present and numeric,
otherwise `validateNumber` throws and the `catch` skips the rule. -/
def calculateDefaultFactors (ind : Indicators) : List ℚ :=
  (if ruleTriggers ind.DeficitGDP 7 Op.gt then [(3 : ℚ)] else []) ++
  (if ruleTriggers ind.A091RC1Q027SBEA 4 Op.gt then [(5 : ℚ)/2] else []) ++
  (match ind.DGS10, ind.DFF with
   | some (some g), some (some f) =>
       if checkThreshold (some (g - f)) 2 Op.gt then [(3 : ℚ)/2] else []
   | _, _ => [])

/-- `calculateDevaluationFactors`: DXY < 100 (factor 1.5), Deficit/GDP > 7
(factor 1.8); no trend adjustment. -/
def calculateDevaluationFactors (ind : Indicators) : List ℚ :=
  (if ruleTriggers ind.DXY 100 Op.lt then [(3 : ℚ)/2] else []) ++
  (if ruleTriggers ind.DeficitGDP 7 Op.gt then [(9 : ℚ)/5] else [])

/-- `factors.reduce((acc, f) => acc * f.factor, 1)`. -/
def combinedProduct (fs : List ℚ) : ℚ := fs.foldl (fun acc f => acc * f) 1

/-- The combined factor after the correlation discount
(`CORRELATION_DISCOUNT = {2: 0.7, 3: 0.5}`; both constants are truthy, so the
guards reduce to the length tests). -/
def discountedCombined (fs : List ℚ) : ℚ :=
  let c := combinedProduct fs
  if fs.length = 2 then c * (7/10)
  else if 3 ≤ fs.length then c * (1/2)
  else c

/-- The per-event body of `calculateAllProbabilities`: with at least one
factor, clamp `basePrior * combined` to `[0, 1]`; with none, assign the base
probability unchanged. -/
def eventProbability (basePrior : ℚ) (fs : List ℚ) : ℚ :=
  if 0 < fs.length then clamp (basePrior * discountedCombined fs) 0 1
  else basePrior

/-- The five per-event probabilities (`BASE_PROBABILITIES` keys). -/
structure Probabilities where
  recession : ℚ
  depression : ℚ
  reserve : ℚ
  default : ℚ
  devaluation : ℚ
deriving DecidableEq

/-- One refresh cycle of `updateProbabilities` after the trend-analysis step:
`trendOutcome = none` is the catch branch that replaces the multipliers with
the empty object; `BASE_PROBABILITIES = {recession: 0.15, depression: 0.03,
reserve: 0.05, default: 0.01, devaluation: 0.20}`. -/
def updateProbabilities (ind : Indicators) (trendOutcome : Option TrendMultipliers) :
    Probabilities :=
  let tm := trendOutcome.getD TrendMultipliers.empty
  { recession := eventProbability (15/100) (calculateRecessionFactors ind tm)
    depression := eventProbability (3/100) (calculateDepressionFactors ind)
    reserve := eventProbability (5/100) (calculateReserveFactors ind)
    default := eventProbability (1/100) (calculateDefaultFactors ind)
    devaluation := eventProbability (20/100) (calculateDevaluationFactors ind) }

/-!  Trend analyzer (`src/js/trendAnalyzer.js`).  A historical series is the
list of parsed values stored in `this.historicalData[seriesId]`, newest
first; the loop in `calculateTrendDirection` reads `data[n - 1 - i].value`,
i.e. it regresses over the reversed (oldest-first) list. -/

/-- The loop accumulator `sumX`: sum of the time indices `0 .. n-1`. -/
def sumX (n : ℕ) : ℚ := ((List.range n).map (fun i : ℕ => (i : ℚ))).sum

/-- The loop accumulator `sumX2`: sum of squared time indices. -/
def sumX2 (n : ℕ) : ℚ := ((List.range n).map (fun i : ℕ => (i : ℚ) * (i : ℚ))).sum

/-- The loop accumulator `sumXY` over the oldest-first series `ys`. -/
def sumXY (ys : List ℚ) : ℚ :=
  ((((List.range ys.length).map (fun i : ℕ => (i : ℚ))).zip ys).map
    (fun p => p.1 * p.2)).sum

/-- The slope line of `calculateTrendDirection`:
`(n * sumXY - sumX * sumY) / (n * sumX2 - sumX * sumX)` where `sumY` is the
series sum.  For `n ≥ 2` the denominator is a positive rational, so the
JavaScript division is an ordinary finite division. -/
def regSlope (ys : List ℚ) : ℚ :=
  ((ys.length : ℚ) * sumXY ys - sumX ys.length * ys.sum) /
    ((ys.length : ℚ) * sumX2 ys.length - sumX ys.length * sumX ys.length)

/-- `calculateTrendDirection(seriesId, isInverted)` on the stored series
`data` (newest first).  When the mean is zero the JavaScript quotient
`slope / avgValue` is `±Infinity` (or `NaN` for `slope = 0`); then
`Math.abs(...) < 0.5` is false and the `> 0` test is true exactly for
`+Infinity`, so that branch is mirrored explicitly. -/
def calculateTrendDirection (data : List ℚ) (isInverted : Bool) : Int :=
  if data.length < 3 then 0
  else
    let ys := data.reverse
    let slope := regSlope ys
    let avgValue := ys.sum / (ys.length : ℚ)
    if avgValue = 0 then
      if 0 < slope then (if isInverted then -1 else 1)
      else (if isInverted then 1 else -1)
    else
      let normalizedSlope := slope / avgValue * 100
      if |normalizedSlope| < 1/2 then 0
      else if 0 < normalizedSlope then (if isInverted then -1 else 1)
      else (if isInverted then 1 else -1)

/-- `calculateVelocity(seriesId)` on the stored series (newest first):
`((latest - oldest) / oldest) * 100 / (len - 1)`.  There is no guard for
`oldest = 0`: the IEEE quotient is then `±Infinity` (`NaN` when `latest` is
also `0`), it does not throw, and multiplying by `100` and dividing by the
positive month count preserves it — so the function returns a non-finite
value, not `0`. -/
def calculateVelocity (data : List ℚ) : FloatVal :=
  match data with
  | [] => FloatVal.num 0
  | [_] => FloatVal.num 0
  | latest :: b :: t =>
    let oldest := (b :: t).getLastD b
    let months : ℚ := ((t.length + 1 : ℕ) : ℚ)
    if oldest = 0 then
      if 0 < latest then FloatVal.posInf
      else if latest < 0 then FloatVal.negInf
      else FloatVal.nan
    else FloatVal.num (((latest - oldest) / oldest) * 100 / months)

/-- `Math.abs(velocity) > 2.0` on a JavaScript number:
`|±Infinity| > 2` is true, `|NaN| > 2` is false. -/
def absGtTwo : FloatVal → Bool
  | FloatVal.num q => 2 < |q|
  | FloatVal.posInf => true
  | FloatVal.negInf => true
  | FloatVal.nan => false

/-- `getTrendMultiplier(seriesId, isInverted)`.  The dictionary lookup
`directionMultipliers[direction.toString()]` is written as the equivalent
case split (the direction is always `-1`, `0` or `1`). -/
def getTrendMultiplier (data : List ℚ) (isInverted : Bool) : ℚ :=
  let direction := calculateTrendDirection data isInverted
  let highVelocity := absGtTwo (calculateVelocity data)
  let multiplier : ℚ :=
    if direction = -1 then 13/10 else if direction = 0 then 1 else 7/10
  if highVelocity then
    if direction = -1 then min (multiplier * (12/10)) (3/2)
    else if direction = 1 then max (multiplier * (8/10)) (1/2)
    else multiplier
  else multiplier

/-!  Spec-side definitions, written from the specification text, to be
compared with the code-derived definitions above. -/

/-- Spec-side combined factor for one event: the product of all effective
factors, times 0.7 when exactly two factors triggered and 0.5 when three or
more did (no discount for zero or one). -/
def specCombined (fs : List ℚ) : ℚ :=
  fs.foldl (fun acc f => acc * f) 1 *
    (if fs.length = 2 then 7/10 else if 3 ≤ fs.length then 1/2 else 1)

/-- Spec-side ordinary-least-squares slope of the oldest-first series `ys`
against the time index `x = 0 .. n-1`, in the textbook centred form
`Σ (xᵢ - x̄)(yᵢ - ȳ) / Σ (xᵢ - x̄)²`. -/
def olsSlope (ys : List ℚ) : ℚ :=
  let xs := (List.range ys.length).map (fun i : ℕ => (i : ℚ))
  let xbar := xs.sum / (ys.length : ℚ)
  let ybar := ys.sum / (ys.length : ℚ)
  ((xs.zip ys).map (fun p => (p.1 - xbar) * (p.2 - ybar))).sum /
    (xs.map (fun x => (x - xbar) * (x - xbar))).sum

/-- Spec-side normalised slope: `(slope / mean) * 100`, percent of mean per
period. -/
def specNormalizedSlope (ys : List ℚ) : ℚ :=
  olsSlope ys / (ys.sum / (ys.length : ℚ)) * 100

/-- Spec-side trend-direction classification of the oldest-first series:
stable (0) exactly when `|normalizedSlope| < 0.5`, otherwise the sign of the
normalised slope, flipped for an inverted indicator. -/
def specDirection (ys : List ℚ) (isInverted : Bool) : Int :=
  if |specNormalizedSlope ys| < 1/2 then 0
  else if 0 < specNormalizedSlope ys then (if isInverted then -1 else 1)
  else if isInverted then 1 else -1

/-!  Shared lemmas. -/

lemma clamp_unit_nonneg (x : ℚ) : 0 ≤ clamp x 0 1 :=
  le_min (le_max_right x 0) zero_le_one

lemma clamp_unit_le_one (x : ℚ) : clamp x 0 1 ≤ 1 :=
  min_le_right _ _

/-- A per-event probability always lies in `[0, 1]` when the base prior
does: the non-empty branch clamps, the empty branch returns the prior. -/
lemma eventProbability_bounds (bp : ℚ) (fs : List ℚ) (h0 : 0 ≤ bp) (h1 : bp ≤ 1) :
    0 ≤ eventProbability bp fs ∧ eventProbability bp fs ≤ 1 := by
  unfold eventProbability
  split_ifs
  · exact ⟨clamp_unit_nonneg _, clamp_unit_le_one _⟩
  · exact ⟨h0, h1⟩

/-- The trend direction is always `-1`, `0` or `1`. -/
lemma direction_cases (data : List ℚ) (inv : Bool) :
    calculateTrendDirection data inv = -1 ∨ calculateTrendDirection data inv = 0 ∨
      calculateTrendDirection data inv = 1 := by
  simp only [calculateTrendDirection]
  split_ifs <;> simp

/-- The trend multiplier only ever takes one of five values. -/
lemma multiplier_cases (data : List ℚ) (inv : Bool) :
    getTrendMultiplier data inv = 14/25 ∨ getTrendMultiplier data inv = 7/10 ∨
      getTrendMultiplier data inv = 1 ∨ getTrendMultiplier data inv = 13/10 ∨
      getTrendMultiplier data inv = 3/2 := by
  simp only [getTrendMultiplier]
  rcases direction_cases data inv with h | h | h <;>
    rw [h] <;> split_ifs <;> simp_all <;> norm_num [min_def, max_def]

/-- The correlation-discount step written as the spec writes it. -/
lemma discountedCombined_eq_spec (fs : List ℚ) :
    discountedCombined fs = specCombined fs := by
  unfold discountedCombined specCombined combinedProduct
  split_ifs <;> simp

/-- Folding one more factor multiplies the combined product by it. -/
lemma combinedProduct_append (fs : List ℚ) (f : ℚ) :
    combinedProduct (fs ++ [f]) = combinedProduct fs * f := by
  unfold combinedProduct
  rw [List.foldl_append]
  rfl

lemma sum_map_centered (l : List (ℚ × ℚ)) (a b : ℚ) :
    (l.map (fun p => (p.1 - a) * (p.2 - b))).sum
      = (l.map (fun p => p.1 * p.2)).sum - b * (l.map Prod.fst).sum
        - a * (l.map Prod.snd).sum + (l.length : ℚ) * (a * b) := by
  induction l with
  | nil => simp
  | cons p t ih =>
    simp only [List.map_cons, List.sum_cons, List.length_cons, ih]
    push_cast
    ring

lemma sum_map_sq_centered (l : List ℚ) (a : ℚ) :
    (l.map (fun x => (x - a) * (x - a))).sum
      = (l.map (fun x => x * x)).sum - 2 * a * l.sum + (l.length : ℚ) * (a * a) := by
  induction l with
  | nil => simp
  | cons x t ih =>
    simp only [List.map_cons, List.sum_cons, List.length_cons, ih]
    push_cast
    ring

/-- The centred quotient equals the computational quotient, for opaque sums:
a pure field identity under ℚ's division-by-zero convention. -/
lemma centered_quotient_eq (n : ℚ) (hn : n ≠ 0) (XY S Y Q : ℚ) :
    (XY - Y / n * S - S / n * Y + n * (S / n * (Y / n))) /
      (Q - 2 * (S / n) * S + n * (S / n * (S / n)))
    = (n * XY - S * Y) / (n * Q - S * S) := by
  have h1 : XY - Y / n * S - S / n * Y + n * (S / n * (Y / n)) = (n * XY - S * Y) / n := by
    field_simp
    ring
  have h2 : Q - 2 * (S / n) * S + n * (S / n * (S / n)) = (n * Q - S * S) / n := by
    field_simp
    ring
  rw [h1, h2]
  rcases eq_or_ne (n * Q - S * S) 0 with hQ | hQ
  · rw [hQ]
    simp
  · field_simp

lemma olsSlope_eq_regSlope (ys : List ℚ) (h : ys ≠ []) : olsSlope ys = regSlope ys := by
  have hl : ys.length ≠ 0 := fun hl => h (List.length_eq_zero.mp hl)
  have hn : (ys.length : ℚ) ≠ 0 := Nat.cast_ne_zero.mpr hl
  have hlen : ((List.range ys.length).map (fun i : ℕ => (i : ℚ))).length = ys.length := by
    simp
  simp only [olsSlope, regSlope, sumXY, sumX, sumX2]
  rw [sum_map_centered, sum_map_sq_centered,
    List.map_fst_zip _ ys (le_of_eq hlen),
    List.map_snd_zip _ ys (le_of_eq hlen.symm), List.length_zip, hlen, min_self]
  simp only [List.map_map, Function.comp]
  exact centered_quotient_eq _ hn _ _ _ _

/-!  Claim theorems. -/

/-- C1: for every risk event (any base prior in `[0, 1]`, which covers the
five configured priors) and every factor list, the final probability equals
`clamp(basePrior * C, 0, 1)` where `C` is the product of effective factors
times the correlation discount (0.7 for exactly two factors, 0.5 for three
or more, none otherwise); with no factors the probability is the base prior
exactly, and two factors 1.8 and 2.0 with prior 0.15 give 0.378. -/
theorem eventProbability_spec (bp : ℚ) (h0 : 0 ≤ bp) (h1 : bp ≤ 1) (fs : List ℚ) :
    eventProbability bp fs = clamp (bp * specCombined fs) 0 1 ∧
    eventProbability bp [] = bp ∧
    eventProbability (15/100) [18/10, 2] = 378/1000 := by
  refine ⟨?_, rfl, by norm_num [eventProbability, discountedCombined, combinedProduct, clamp]⟩
  unfold eventProbability
  rw [discountedCombined_eq_spec]
  split_ifs with hfs
  · rfl
  · have hnil : fs = [] := List.length_eq_zero.mp (by omega)
    subst hnil
    simp only [specCombined, List.foldl_nil, List.length_nil, mul_one]
    norm_num [clamp, max_eq_left h0, min_eq_left h1]

/-- Witness for C1 at the discount-tier example of the spec: prior 0.15,
factors 1.8 and 2.0, result 0.378. -/
theorem eventProbability_spec_instance :
    (0 ≤ (15 : ℚ)/100) ∧ ((15 : ℚ)/100 ≤ 1) ∧
    eventProbability (15/100) [18/10, 2] = clamp ((15/100) * specCombined [18/10, 2]) 0 1 ∧
    eventProbability (15/100) [18/10, 2] = 378/1000 :=
  ⟨by norm_num, by norm_num,
   (eventProbability_spec (15/100) (by norm_num) (by norm_num) [18/10, 2]).1,
   (eventProbability_spec (15/100) (by norm_num) (by norm_num) [18/10, 2]).2.2⟩

/-- C2: every trend multiplier lies in `[0.5, 1.5]`, and every one of the
five risk probabilities produced by a refresh cycle lies in `[0, 1]`. -/
theorem multiplier_and_probability_bounds :
    (∀ data : List ℚ, ∀ inv : Bool,
        1/2 ≤ getTrendMultiplier data inv ∧ getTrendMultiplier data inv ≤ 3/2) ∧
    (∀ ind : Indicators, ∀ tr : Option TrendMultipliers,
        (0 ≤ (updateProbabilities ind tr).recession ∧
          (updateProbabilities ind tr).recession ≤ 1) ∧
        (0 ≤ (updateProbabilities ind tr).depression ∧
          (updateProbabilities ind tr).depression ≤ 1) ∧
        (0 ≤ (updateProbabilities ind tr).reserve ∧
          (updateProbabilities ind tr).reserve ≤ 1) ∧
        (0 ≤ (updateProbabilities ind tr).default ∧
          (updateProbabilities ind tr).default ≤ 1) ∧
        (0 ≤ (updateProbabilities ind tr).devaluation ∧
          (updateProbabilities ind tr).devaluation ≤ 1)) := by
  constructor
  · intro data inv
    rcases multiplier_cases data inv with h | h | h | h | h <;> rw [h] <;> norm_num
  · intro ind tr
    simp only [updateProbabilities]
    exact ⟨eventProbability_bounds _ _ (by norm_num) (by norm_num),
      eventProbability_bounds _ _ (by norm_num) (by norm_num),
      eventProbability_bounds _ _ (by norm_num) (by norm_num),
      eventProbability_bounds _ _ (by norm_num) (by norm_num),
      eventProbability_bounds _ _ (by norm_num) (by norm_num)⟩

/-- C5: the multiplier is 1.3 / 1.0 / 0.7 according to the direction, and
when the absolute velocity exceeds 2.0 %/period a worsening direction is
amplified by 1.2 capped at 1.5, an improving one by 0.8 floored at 0.5,
while a stable direction is unaffected by velocity. -/
theorem getTrendMultiplier_spec (data : List ℚ) (inv : Bool) :
    getTrendMultiplier data inv =
      (if calculateTrendDirection data inv = -1 then
        (if absGtTwo (calculateVelocity data) then min ((13/10) * (12/10)) (3/2)
          else 13/10)
      else if calculateTrendDirection data inv = 1 then
        (if absGtTwo (calculateVelocity data) then max ((7/10) * (8/10)) (1/2)
          else 7/10)
      else 1) := by
  simp only [getTrendMultiplier]
  rcases direction_cases data inv with h | h | h <;> rw [h] <;> split_ifs <;> simp_all

/-- C4: for a series with at least 3 points (and a non-zero mean, so that
the normalisation `(slope / mean) * 100` is an ordinary finite division),
the code's trend direction agrees with the spec-side classification of the
oldest-first series built from the textbook ordinary-least-squares slope:
0 exactly when the normalised slope has absolute value below 0.5, otherwise
its sign, flipped for an inverted indicator; for fewer than 3 points the
direction is 0. -/
theorem trendDirection_spec (data : List ℚ) (inv : Bool) (h3 : 3 ≤ data.length)
    (hs : data.sum ≠ 0) :
    calculateTrendDirection data inv = specDirection data.reverse inv ∧
    (∀ d : List ℚ, ∀ i : Bool, d.length < 3 → calculateTrendDirection d i = 0) := by
  constructor
  · have hlen3 : ¬data.length < 3 := not_lt.mpr h3
    have hne : data.reverse ≠ [] := by
      intro hc
      have : data.reverse.length = 0 := by rw [hc]; rfl
      rw [List.length_reverse] at this
      omega
    have hrn : (data.reverse.length : ℚ) ≠ 0 := by
      rw [List.length_reverse]
      exact_mod_cast by omega
    have hrs : data.reverse.sum = data.sum := List.sum_reverse data
    have havg : data.reverse.sum / (data.reverse.length : ℚ) ≠ 0 :=
      div_ne_zero (hrs ▸ hs) hrn
    simp only [calculateTrendDirection, specDirection, specNormalizedSlope, if_neg hlen3,
      olsSlope_eq_regSlope data.reverse hne, if_neg havg]
  · intro d i hdi
    simp [calculateTrendDirection, hdi]

/-- Witness for C4: the 3-point series `[4, 2, 1]` (newest first; rising
oldest-to-newest) matches the spec classification, yields -1 when the
indicator is inverted and +1 when it is not, and a 2-point series yields
direction 0. -/
theorem trendDirection_spec_instance :
    (3 ≤ ([4, 2, 1] : List ℚ).length) ∧ (([4, 2, 1] : List ℚ).sum ≠ 0) ∧
    calculateTrendDirection [4, 2, 1] true = specDirection (([4, 2, 1] : List ℚ).reverse) true ∧
    calculateTrendDirection [4, 2, 1] true = -1 ∧
    calculateTrendDirection [4, 2, 1] false = 1 ∧
    calculateTrendDirection [2, 4] true = 0 :=
  ⟨by norm_num, by norm_num,
   (trendDirection_spec [4, 2, 1] true (by norm_num) (by norm_num)).1,
   by norm_num [calculateTrendDirection, regSlope, sumX, sumX2, sumXY, List.range_succ,
     abs_of_pos, abs_of_nonneg],
   by norm_num [calculateTrendDirection, regSlope, sumX, sumX2, sumXY, List.range_succ,
     abs_of_pos, abs_of_nonneg],
   (trendDirection_spec [4, 2, 1] true (by norm_num) (by norm_num)).2 [2, 4] true (by norm_num)⟩

/-- C8: a rule whose indicator is absent from the snapshot, or whose raw
value is NaN or otherwise non-numeric, never triggers — no Contributing
Factor is produced and (being a total function) nothing is thrown; in
particular the reserve rule emits no factor when DXY is missing or
non-numeric. -/
theorem missing_or_nan_never_triggers :
    (∀ t : ℚ, ∀ op : Op, checkThreshold none t op = false) ∧
    (∀ t : ℚ, ∀ op : Op, ruleTriggers none t op = false) ∧
    (∀ t : ℚ, ∀ op : Op, ruleTriggers (some none) t op = false) ∧
    calculateReserveFactors Indicators.empty = [] ∧
    calculateReserveFactors { Indicators.empty with DXY := some none } = [] :=
  ⟨fun _ _ => rfl, fun _ _ => rfl, fun _ _ => rfl, rfl, rfl⟩

/-- C9: a refresh cycle whose trend subsystem failed wholesale (empty
multipliers object) produces exactly the same five probabilities as one in
which every multiplier is available and equal to 1.0; the cycle is a total
function returning all five events. -/
theorem updateProbabilities_trend_failure_neutral (ind : Indicators) :
    updateProbabilities ind none = updateProbabilities ind (some TrendMultipliers.ones) := by
  simp [updateProbabilities, calculateRecessionFactors, applyTrendAdjustment,
    TrendMultipliers.empty, TrendMultipliers.ones]

/-- C10: the trend multiplier takes one of exactly five values
{0.56, 0.7, 1.0, 1.3, 1.5}; the cap 1.5 is attained (1.3 × 1.2 = 1.56 is
capped) while the documented floor 0.5 is never attained, the improving
high-velocity branch stopping at 0.7 × 0.8 = 0.56. -/
theorem getTrendMultiplier_range :
    (∀ data : List ℚ, ∀ inv : Bool,
      getTrendMultiplier data inv = 14/25 ∨ getTrendMultiplier data inv = 7/10 ∨
        getTrendMultiplier data inv = 1 ∨ getTrendMultiplier data inv = 13/10 ∨
        getTrendMultiplier data inv = 3/2) ∧
    getTrendMultiplier [1, 2, 4] false = 3/2 ∧
    getTrendMultiplier [10, 5, 2] false = 14/25 ∧
    (∀ data : List ℚ, ∀ inv : Bool, getTrendMultiplier data inv ≠ 1/2) := by
  refine ⟨multiplier_cases, ?_, ?_, ?_⟩
  · norm_num [getTrendMultiplier, calculateTrendDirection, calculateVelocity, regSlope,
      sumX, sumX2, sumXY, absGtTwo, List.range_succ, abs_of_pos, abs_of_nonneg]
  · norm_num [getTrendMultiplier, calculateTrendDirection, calculateVelocity, regSlope,
      sumX, sumX2, sumXY, absGtTwo, List.range_succ, abs_of_pos, abs_of_nonneg]
  · intro data inv
    rcases multiplier_cases data inv with h | h | h | h | h <;> rw [h] <;> norm_num

/-- C3 (divergence): only the three recession rules apply the trend
adjustment.  With DFF = 0.2 (triggering the depression Fed-Funds rule) and a
trend multiplier 1.3 available for DFF, the emitted depression factor is the
bare base factor 3.0, not 3.0 × 1.3 = 3.9, and the resulting depression
probability is 0.03 × 3 = 0.09 rather than 0.03 × 3.9 = 0.117; by contrast a
recession rule (Deficit/GDP = 6 with multiplier 1.3) does emit
baseFactor × multiplier. -/
theorem depression_factors_ignore_trend :
    calculateDepressionFactors { Indicators.empty with DFF := some (some (1/5)) } = [3] ∧
    ((3 : ℚ) ≠ 3 * (13/10)) ∧
    (updateProbabilities { Indicators.empty with DFF := some (some (1/5)) }
        (some ⟨none, none, none, some (13/10)⟩)).depression = 9/100 ∧
    ((9 : ℚ)/100 ≠ (3/100) * (3 * (13/10))) ∧
    calculateRecessionFactors { Indicators.empty with DeficitGDP := some (some 6) }
        ⟨some (13/10), none, none, none⟩ = [18/10 * (13/10)] := by
  refine ⟨?_, by norm_num, ?_, by norm_num, ?_⟩ <;>
    norm_num [calculateDepressionFactors, calculateRecessionFactors, calculateReserveFactors,
      calculateDefaultFactors, calculateDevaluationFactors, updateProbabilities,
      eventProbability, discountedCombined, combinedProduct, clamp, ruleTriggers,
      checkThreshold, mbToM2Triggers, applyTrendAdjustment, Indicators.empty]

/-- C6 (divergence): velocity follows the two-endpoint formula
`((newest - oldest) / oldest) * 100 / (n - 1)` and is 0 for fewer than two
points, but when the oldest value is 0 the unguarded IEEE division returns a
non-finite value (+Infinity for the series `[5, 0]`), not 0. -/
theorem calculateVelocity_spec :
    calculateVelocity [5, 0] = FloatVal.posInf ∧
    calculateVelocity [] = FloatVal.num 0 ∧
    (∀ q : ℚ, calculateVelocity [q] = FloatVal.num 0) ∧
    calculateVelocity [6, 2, 4, 2] = FloatVal.num ((6 - 2) / 2 * 100 / 3) := by
  refine ⟨by norm_num [calculateVelocity], rfl, fun q => rfl, ?_⟩
  norm_num [calculateVelocity]

/-- C7 as stated is false: a refresh cycle can produce a contributing factor
with effective factor below 1 — the T10Y2Y history `[-10, -5, -2]` (newest
first) classifies as improving at high velocity, multiplier 0.56, so the
triggered yield-curve rule emits 1.7 × 0.56 = 0.952, and appending that
factor strictly decreases the pre-discount combined product. -/
theorem append_factor_can_decrease_product :
    getTrendMultiplier [-10, -5, -2] false = 14/25 ∧
    calculateRecessionFactors { Indicators.empty with T10Y2Y := some (some (-10)) }
        ⟨none, none, some (14/25), none⟩ = [17/10 * (14/25)] ∧
    combinedProduct ([] ++ [17/10 * (14/25)]) < combinedProduct ([] : List ℚ) := by
  refine ⟨?_, ?_, ?_⟩
  · norm_num [getTrendMultiplier, calculateTrendDirection, calculateVelocity, regSlope,
      sumX, sumX2, sumXY, absGtTwo, List.range_succ, abs_of_pos, abs_of_nonneg]
  · norm_num [calculateRecessionFactors, ruleTriggers, checkThreshold,
      applyTrendAdjustment, Indicators.empty]
  · norm_num [combinedProduct]

/-- C7 amended: appending one additional triggered factor never decreases
the pre-discount combined product provided the appended effective factor is
at least 1 (base factors always exceed 1, but a trend multiplier of 0.56 or
0.7 can push an effective factor below 1, in which case the product
decreases). -/
theorem append_factor_ge_one_monotone (fs : List ℚ) (f : ℚ)
    (h0 : 0 ≤ combinedProduct fs) (h1 : 1 ≤ f) :
    combinedProduct fs ≤ combinedProduct (fs ++ [f]) := by
  rw [combinedProduct_append]
  exact le_mul_of_one_le_right h0 h1

/-- Witness for the amended C7: appending the factor 2 to the singleton
list [1.8] grows the product from 1.8 to 3.6. -/
theorem append_factor_ge_one_monotone_instance :
    (0 ≤ combinedProduct [(9 : ℚ)/5]) ∧ (1 ≤ (2 : ℚ)) ∧
    combinedProduct [(9 : ℚ)/5] ≤ combinedProduct ([(9 : ℚ)/5] ++ [2]) :=
  ⟨by norm_num [combinedProduct], by norm_num,
   append_factor_ge_one_monotone [(9 : ℚ)/5] 2 (by norm_num [combinedProduct]) (by norm_num)⟩
